import Mathlib

/-!
Verification development for the swap-orchestration service in
src/server.js (Express handler for POST /swap plus the helper
ensureAllowance).

The JavaScript handler is shallowly embedded as a pure Lean function.
External collaborators (ethers address normalization, the signer, the
pricing and transaction-build HTTP services, the chain reads/writes)
are modelled as an environment record supplying the outcome of each
call site; the handler is strictly sequential and calls each site at
most once per request, so one outcome per site is faithful.  Every
external call the handler performs is additionally recorded in an
ordered call list, and every log-bag push is recorded in an ordered
log list, so that claims about which calls happen and what the trace
contains are statable.

Machine-level JavaScript details that no claim depends on are noted
where they are abstracted: JS Number arithmetic is modelled over ℚ
(NaN is modelled as Option.none where it can arise), string rendering
of non-integer numbers is approximate, and BigInt string parsing is
modelled for decimal forms only.
-/

-- The four rational operations below are irreducible by default,
-- which blocks kernel evaluation of concrete runs of the model; the
-- attribute restores evaluability for this file.
attribute [local semireducible] Rat.mul Rat.inv Rat.add Rat.sub

/-- A JavaScript runtime value as far as the handler inspects one:
null, booleans, numbers (modelled over ℚ; the handler never does
arithmetic on upstream values where float rounding could matter) and
strings.  Objects and arrays are modelled structurally by the records
below. -/
inductive JSVal where
  | vnull : JSVal
  | vbool : Bool → JSVal
  | vnum : ℚ → JSVal
  | vstr : String → JSVal
deriving DecidableEq, Repr

/-- JavaScript truthiness of a value: null, false, 0 and the empty
string are falsy. -/
def JSVal.truthy : JSVal → Bool
  | .vnull => false
  | .vbool b => b
  | .vnum q => q != 0
  | .vstr s => s != ""

/-- Truthiness of a possibly-undefined value (none models the JS
undefined that optional chaining produces for a missing field). -/
def jsTruthyO : Option JSVal → Bool
  | none => false
  | some v => v.truthy

/-- The JS expression a short-circuit-or b over possibly-undefined
values: a when a is truthy, otherwise b. -/
def jsOrV (a b : Option JSVal) : Option JSVal :=
  if jsTruthyO a then a else b

/-- JS String(v) coercion.  Rendering of non-integer numbers is
approximate (Lean rational notation instead of JS float notation); no
claim depends on that rendering. -/
def JSVal.jsString : JSVal → String
  | .vnull => "null"
  | .vbool b => if b then "true" else "false"
  | .vnum q => if q.den = 1 then toString q.num else toString q
  | .vstr s => s

/-- Numeric value of a list of decimal digit characters. -/
def digitsVal (cs : List Char) : ℕ :=
  cs.foldl (fun n c => 10 * n + (c.toNat - 48)) 0

/-- JS BigInt(s) on a string, modelled for the decimal forms the
handler can meet: the empty string is 0n, an optionally negated
digit string is its value, anything else throws (none).  Whitespace
trimming and hex/octal/binary prefixes are not modelled; no claim
exercises them. -/
def decStrToBigInt (s : String) : Option ℤ :=
  if s = "" then some 0
  else if s.toList.all Char.isDigit then some (digitsVal s.toList)
  else if s.startsWith "-" && (s.drop 1).toList.all Char.isDigit && s.drop 1 != "" then
    some (-(digitsVal (s.drop 1).toList))
  else none

/-- JS BigInt(v) on an arbitrary value: booleans convert, integral
numbers convert, non-integral numbers and null throw (none), strings
parse as in decStrToBigInt. -/
def jsBigInt : JSVal → Option ℤ
  | .vnull => none
  | .vbool b => some (if b then 1 else 0)
  | .vnum q => if q.den = 1 then some q.num else none
  | .vstr s => decStrToBigInt s

/-- ethers.MaxUint256, the amount the approval transaction requests. -/
def MaxUint256 : ℕ := 2 ^ 256 - 1

/-- Array.prototype.join with separator a comma, as used for
excludeDexs.join in the handler. -/
def joinCSV : List String → String
  | [] => ""
  | [x] => x
  | x :: y :: r => x ++ "," ++ joinCSV (y :: r)

/-- server.js line 219: excludeDexs.join(",") short-circuit-or
undefined.  The comma-join is sent when it is truthy (nonempty) and
the parameter is omitted (none) when the join is the empty string. -/
def excludeParam (xs : List String) : Option String :=
  if joinCSV xs = "" then none else some (joinCSV xs)

/-- JS x.toFixed(4) followed by Number(...): round to four decimal
places.  The ECMAScript rounding picks the larger candidate on ties,
which is the floor of x * 10^4 + 1/2, computed here as the
floor-division of the numerator by the denominator; binary-float
representation error is not modelled (no claim depends on a rounding
boundary). -/
def toFixed4 (q : ℚ) : ℚ :=
  (((q * 10000 + 1 / 2).num.fdiv ((q * 10000 + 1 / 2).den : ℤ) : ℤ) : ℚ) / 10000

/-- The slippage percentage the handler transmits: Number with the
body slippageBps divided by 100 and fixed to four decimals (lines 221
and 276 of server.js compute the same quantity).  The none case
models a NaN slippage, which validation rejects before this value is
ever used. -/
def slippagePct : Option ℚ → ℚ
  | none => 0
  | some q => toFixed4 (q / 100)

/-- The two fields of the pricing response the orchestrator depends
on, each possibly absent.  Used both for the top level of the
response body and for the optional priceRoute wrapper object. -/
structure PriceFields where
  destAmount : Option JSVal
  tokenTransferProxy : Option JSVal
deriving DecidableEq, Repr

/-- The JSON body returned by the pricing service, as far as the
handler inspects it: an optional priceRoute wrapper object (none also
covers a null or non-object priceRoute field, which optional chaining
treats the same for field access) and the same two fields at top
level. -/
structure QuoteResp where
  wrapper : Option PriceFields
  top : PriceFields
deriving DecidableEq, Repr

/-- destAmount extraction of server.js line 232: the wrapped field
short-circuit-or the top-level field. -/
def QuoteResp.destAmountX (q : QuoteResp) : Option JSVal :=
  jsOrV (q.wrapper.bind PriceFields.destAmount) q.top.destAmount

/-- tokenTransferProxy extraction of server.js lines 234-236. -/
def QuoteResp.proxyX (q : QuoteResp) : Option JSVal :=
  jsOrV (q.wrapper.bind PriceFields.tokenTransferProxy) q.top.tokenTransferProxy

/-- The payload forwarded to the transaction-build call: either the
wrapper object or the whole pricing response. -/
inductive ForwardedRoute where
  | wrapped : PriceFields → ForwardedRoute
  | whole : QuoteResp → ForwardedRoute
deriving DecidableEq, Repr

/-- server.js line 270: priceRoute.priceRoute short-circuit-or
priceRoute.  A wrapper object is truthy, so it wins exactly when the
field is present (as an object). -/
def QuoteResp.forward (q : QuoteResp) : ForwardedRoute :=
  match q.wrapper with
  | some pf => .wrapped pf
  | none => .whole q

/-- The JSON body returned by the transaction-build service, as far
as the handler inspects it.  Field names follow server.js (to, data,
value, gasPrice, gas); the F suffix avoids clash-prone Lean names. -/
structure TxData where
  toF : Option JSVal
  dataF : Option JSVal
  value : Option JSVal
  gasPrice : Option JSVal
  gas : Option JSVal
deriving DecidableEq, Repr

/-- BigInt(txData.value short-circuit-or the string 0), the native
value the broadcast uses (server.js line 305); none models a thrown
conversion error. -/
def txValueWei (t : TxData) : Option ℤ :=
  match jsOrV t.value (some (.vstr "0")) with
  | some v => jsBigInt v
  | none => none

/-- txData.gas conditional BigInt(txData.gas) else undefined
(server.js line 307).  Outer none models a thrown conversion error;
some none models the undefined gas limit. -/
def txGasLimit (t : TxData) : Option (Option ℤ) :=
  if jsTruthyO t.gas then
    match t.gas with
    | some g =>
      match jsBigInt g with
      | some z => some (some z)
      | none => none
    | none => some none
  else some none

/-- Query parameters of the pricing request (server.js lines
210-222).  The slippage string with four decimals is modelled by its
numeric value. -/
structure PricesParams where
  srcToken : String
  destToken : String
  amount : String
  side : String
  network : ℕ
  userAddress : String
  excludeDEXS : Option String
  slippage : ℚ
deriving DecidableEq, Repr

/-- Body of the transaction-build request (server.js lines 269-281).
destAmount is carried explicitly so that its absence is statable: the
object literal in the source has no destAmount key, so the field is
always none. -/
structure TxBody where
  priceRoute : ForwardedRoute
  srcToken : String
  destToken : String
  srcAmount : String
  userAddress : String
  slippage : ℚ
  destAmount : Option String
  partner : Option String
deriving DecidableEq, Repr

/-- Parameters of signer.sendTransaction (server.js lines 302-308). -/
structure SendTxParams where
  toF : Option JSVal
  dataF : Option JSVal
  value : ℤ
  gasLimit : Option ℤ
deriving DecidableEq, Repr

/-- A confirmation receipt: block number and on-chain status. -/
structure Receipt where
  blockNumber : ℕ
  status : ℕ
deriving DecidableEq, Repr

/-- One entry of the request log bag.  The source pushes a tag and a
JSON.stringify of a payload object; each constructor models one push
site with its structured payload, in source order. -/
inductive LogEntry where
  | WALLET (wallet tokenFrom tokenTo amountWei : String)
      (slippageBps : Option ℚ) (excludeDexs : List String) (unsignedOnly : Bool)
  | PARASWAP_PRICES (p : PricesParams)
  | PRICE_OK (destAmount : String) (tokenTransferProxy : JSVal)
  | ALLOWANCE (spender : String) (allowance : ℕ) (neededWei : String)
  | APPROVING (spender : String)
  | APPROVE_SENT (hash : String)
  | APPROVE_CONFIRMED (block : ℕ)
  | PARASWAP_TX_BODY (userAddress : String) (slippage : ℚ)
  | TX_OK (toAddr : String) (value : String) (gasPrice gas : Option JSVal)
  | SENT (hash : String)
  | CONFIRMED (block : ℕ) (status : ℕ)
deriving DecidableEq, Repr

/-- An external call the handler performs, recorded in order. -/
inductive ExtCall where
  | signerGetAddress
  | pricesGet (p : PricesParams)
  | allowanceRead (token owner spender : String)
  | approveSend (token spender : String) (amount : ℕ)
  | approveWait
  | buildPost (b : TxBody)
  | sendTx (t : SendTxParams)
  | txWait
deriving DecidableEq, Repr

/-- Chain-write calls among the external calls: the approval
submission and the swap broadcast. -/
def isChainWrite : ExtCall → Bool
  | .approveSend _ _ _ => true
  | .sendTx _ => true
  | _ => false

/-- External calls belonging to the allowance or transaction-build
steps. -/
def touchesAllowanceOrBuild : ExtCall → Bool
  | .allowanceRead _ _ _ => true
  | .approveSend _ _ _ => true
  | .approveWait => true
  | .buildPost _ => true
  | _ => false

/-- The non-error part of an upstream HTTP error: the body the remote
service answered with.  errorField is its error member when the body
is an object carrying one; rest keeps the remainder opaquely for
diagnostics. -/
structure UpstreamBody where
  errorField : Option String
  rest : String
deriving DecidableEq, Repr

/-- A thrown JavaScript error as the catch handler (server.js lines
324-332) distinguishes them: a badRequest error from the helper at
line 122 (status 400, no response attached); an axios error with an
attached upstream response (status and optional body, none modelling
a falsy body); an axios transport failure without a response; any
other thrown error. -/
inductive JsErr where
  | badRequest (msg : String)
  | axios (message : String) (status : ℕ) (dataB : Option UpstreamBody)
  | netfail (message : String)
  | chain (message : String)
deriving DecidableEq, Repr

/-- Raw upstream payload echoed inside an explicit 400 response (the
raw field of the no-route and incomplete-transaction responses). -/
inductive RawEcho where
  | quote (q : QuoteResp)
  | tx (t : TxData)
deriving DecidableEq, Repr

/-- The JSON response of the handler together with its HTTP status.
Absent JSON members are none.  txStatus models the status member of
the confirmed-swap success response (the receipt status). -/
structure SwapResponse where
  httpStatus : ℕ
  ok : Bool
  error : Option String := none
  raw : Option RawEcho := none
  details : Option UpstreamBody := none
  logs : Option (List LogEntry) := none
  mode : Option String := none
  txData : Option TxData := none
  destAmount : Option String := none
  hash : Option String := none
  block : Option ℕ := none
  txStatus : Option ℕ := none
deriving DecidableEq, Repr

/-- Message selection of the catch handler: the upstream body error
member short-circuit-or the error message short-circuit-or the
literal Erro. -/
def jsErrMsg : JsErr → String
  | .badRequest m => m
  | .axios m _ d =>
    match d with
    | some b =>
      match b.errorField with
      | some s => if s != "" then s else (if m != "" then m else "Erro")
      | none => if m != "" then m else "Erro"
    | none => if m != "" then m else "Erro"
  | .netfail m => if m != "" then m else "Erro"
  | .chain m => if m != "" then m else "Erro"

/-- Status selection of the catch handler: the upstream response
status short-circuit-or the error status short-circuit-or 500. -/
def jsErrStatus : JsErr → ℕ
  | .badRequest _ => 400
  | .axios _ st _ => if st ≠ 0 then st else 500
  | .netfail _ => 500
  | .chain _ => 500

/-- details selection of the catch handler: the upstream response
body, else null. -/
def jsErrDetails : JsErr → Option UpstreamBody
  | .axios _ _ d => d
  | _ => none

/-- The response the catch handler (server.js lines 324-332) builds.
It carries no logs member. -/
def catchResponse (e : JsErr) : SwapResponse :=
  { httpStatus := jsErrStatus e, ok := false, error := some (jsErrMsg e),
    details := jsErrDetails e }

/-- The environment a request runs against: configuration and the
outcome of each external call site.  The handler is sequential and
hits each site at most once, so one outcome per site is faithful.
getAddress models ethers.getAddress (none models the throw on an
invalid address); signerAddress is the configured signing identity
when one exists. -/
structure Env where
  chainId : ℕ
  partner : Option String
  getAddress : String → Option String
  signerAddress : Option String
  quoteResult : Except JsErr QuoteResp
  allowanceAmount : ℕ
  approveResult : Except JsErr String
  approveWaitResult : Except JsErr ℕ
  buildResult : Except JsErr TxData
  sendResult : Except JsErr String
  waitResult : Except JsErr Receipt

/-- The parsed request body, taken at the point where the handler has
coerced the fields (server.js lines 173-179): String on amountWei,
Number on slippageBps (none models NaN), the Array.isArray guard on
excludeDexs and the double negation on unsignedOnly already applied.
Bodies that are not objects or miss a required field are rejected by
lines 163-171 before any step this development reasons about. -/
structure SwapBody where
  wallet : String
  tokenFrom : String
  tokenTo : String
  amountWei : String
  slippageBps : Option ℚ
  excludeDexs : List String
  unsignedOnly : Bool
deriving DecidableEq, Repr

/-- The amountWei test of server.js line 183: nonempty and matching
the anchored digits regex. -/
def amountWeiOk (s : String) : Bool :=
  s != "" && s.toList.all Char.isDigit

/-- The slippage rejection test of server.js line 186: falsy (0 or
NaN), below 1 or above 2000. -/
def slippageInvalid : Option ℚ → Bool
  | none => true
  | some q => q == 0 || decide (q < 1) || decide (q > 2000)

/-- Result of ensureAllowance (server.js returns an object with an
approved member). -/
structure EnsureResult where
  approved : Bool
deriving DecidableEq, Repr

/-- ensureAllowance of server.js lines 141-154: read the current
allowance, log it, return approved false when it covers the needed
amount; otherwise submit one approval for MaxUint256, wait for its
confirmation and return approved true.  Thrown errors surface as
Except.error; the accumulated logs and calls are returned in every
case. -/
def ensureAllowance (env : Env) (token owner spender neededWei : String)
    (logs : List LogEntry) (calls : List ExtCall) :
    Except JsErr EnsureResult × List LogEntry × List ExtCall :=
  let calls := calls ++ [.allowanceRead token owner spender]
  let al := env.allowanceAmount
  let logs := logs ++ [.ALLOWANCE spender al neededWei]
  match decStrToBigInt neededWei with
  | none => (.error (.chain ("Cannot convert " ++ neededWei ++ " to a BigInt")), logs, calls)
  | some n =>
    if n ≤ (al : ℤ) then (.ok ⟨false⟩, logs, calls)
    else
      let logs := logs ++ [.APPROVING spender]
      let calls := calls ++ [.approveSend token spender MaxUint256]
      match env.approveResult with
      | .error e => (.error e, logs, calls)
      | .ok h =>
        let logs := logs ++ [.APPROVE_SENT h]
        let calls := calls ++ [.approveWait]
        match env.approveWaitResult with
        | .error e => (.error e, logs, calls)
        | .ok b => (.ok ⟨true⟩, logs ++ [.APPROVE_CONFIRMED b], calls)

/-- JS String.prototype.toLowerCase, for the ASCII address strings
the handler compares (per-character lowering of the char list). -/
def lowerAscii (s : String) : String := ⟨s.data.map Char.toLower⟩

/-- Decision of the eager signed-mode check of server.js lines
191-207: in unsigned mode no early response; otherwise a missing
signer or a case-insensitive wallet mismatch yields the respective
400 response.  The external calls of the same block are factored
into signerCheckCalls. -/
def signerCheckResp (env : Env) (wallet : String) (unsignedOnly : Bool)
    (logs : List LogEntry) : Option SwapResponse :=
  if unsignedOnly then none
  else
    match env.signerAddress with
    | none =>
      some { httpStatus := 400, ok := false,
             error := some "PRIVATE_KEY não configurada no servidor. Use unsignedOnly=true ou configure PRIVATE_KEY.",
             logs := some logs }
    | some sa =>
      if lowerAscii sa ≠ lowerAscii wallet then
        some { httpStatus := 400, ok := false,
               error := some ("wallet (" ++ wallet ++ ") não bate com o signer do servidor (" ++ sa ++ ")."),
               logs := some logs }
      else none

/-- External calls of the eager signed-mode check: signer.getAddress
is awaited exactly when a signer is configured and the mode is
signed. -/
def signerCheckCalls (env : Env) (unsignedOnly : Bool) : List ExtCall :=
  if unsignedOnly then []
  else
    match env.signerAddress with
    | none => []
    | some _ => [.signerGetAddress]

/-- Step 4 of the handler (server.js lines 302-322): convert value
and gas limit (either BigInt conversion may throw, before the
broadcast call is issued), broadcast, wait for one confirmation and
answer with hash, block, receipt status and the quoted destination
amount. -/
def sendStage (env : Env) (dv : JSVal) (txData : TxData)
    (logs : List LogEntry) (calls : List ExtCall) :
    SwapResponse × List LogEntry × List ExtCall :=
  match txValueWei txData with
  | none => (catchResponse (.chain "Cannot convert value to a BigInt"), logs, calls)
  | some v =>
    match txGasLimit txData with
    | none => (catchResponse (.chain "Cannot convert gas to a BigInt"), logs, calls)
    | some g =>
      let calls := calls ++ [.sendTx { toF := txData.toF, dataF := txData.dataF, value := v, gasLimit := g }]
      match env.sendResult with
      | .error e => (catchResponse e, logs, calls)
      | .ok h =>
        let logs := logs ++ [.SENT h]
        let calls := calls ++ [.txWait]
        match env.waitResult with
        | .error e => (catchResponse e, logs, calls)
        | .ok rc =>
          let logs := logs ++ [.CONFIRMED rc.blockNumber rc.status]
          ({ httpStatus := 200, ok := true, hash := some h, block := some rc.blockNumber,
             txStatus := some rc.status, destAmount := some dv.jsString, logs := some logs },
           logs, calls)

/-- Step 3 of the handler (server.js lines 261-299): build the
transaction-request body (slippage only, no destAmount key), POST it,
reject an incomplete answer with a 400 carrying the raw payload and
the logs, answer directly in unsigned mode, otherwise continue to the
broadcast stage. -/
def buildStage (env : Env) (body : SwapBody) (wallet tokenFrom tokenTo : String)
    (priceRoute : QuoteResp) (dv : JSVal)
    (logs : List LogEntry) (calls : List ExtCall) :
    SwapResponse × List LogEntry × List ExtCall :=
  let txBody : TxBody :=
    { priceRoute := priceRoute.forward,
      srcToken := tokenFrom, destToken := tokenTo, srcAmount := body.amountWei,
      userAddress := wallet,
      slippage := slippagePct body.slippageBps,
      destAmount := none,
      partner := env.partner }
  let logs := logs ++ [.PARASWAP_TX_BODY wallet txBody.slippage]
  let calls := calls ++ [.buildPost txBody]
  match env.buildResult with
  | .error e => (catchResponse e, logs, calls)
  | .ok txData =>
    if jsTruthyO txData.toF = false ∨ jsTruthyO txData.dataF = false then
      ({ httpStatus := 400, ok := false, error := some "ParaSwap não retornou tx completa.",
         raw := some (.tx txData), logs := some logs }, logs, calls)
    else
      let logs := logs ++
        [.TX_OK ((txData.toF.getD .vnull).jsString)
          (((jsOrV txData.value (some (.vstr "0"))).getD .vnull).jsString)
          txData.gasPrice txData.gas]
      if body.unsignedOnly then
        ({ httpStatus := 200, ok := true, mode := some "unsignedOnly", txData := some txData,
           destAmount := some dv.jsString, logs := some logs }, logs, calls)
      else sendStage env dv txData logs calls

/-- The handler body once the three addresses are validated
(server.js lines 176-299): push the WALLET entry, run the amount and
slippage checks, the eager signer check, the pricing request with its
no-route check, the conditional allowance step, then the build
stage. -/
def swapMain (env : Env) (body : SwapBody) (wallet tokenFrom tokenTo : String) :
    SwapResponse × List LogEntry × List ExtCall :=
  let logs0 : List LogEntry :=
    [.WALLET wallet tokenFrom tokenTo body.amountWei body.slippageBps body.excludeDexs body.unsignedOnly]
  if amountWeiOk body.amountWei = false then
    ({ httpStatus := 400, ok := false, error := some "amountWei inválido (use string numérica).",
       logs := some logs0 }, logs0, [])
  else if slippageInvalid body.slippageBps = true then
    ({ httpStatus := 400, ok := false, error := some "slippageBps inválido (1..2000).",
       logs := some logs0 }, logs0, [])
  else
    let cs0 := signerCheckCalls env body.unsignedOnly
    match signerCheckResp env wallet body.unsignedOnly logs0 with
    | some r => (r, logs0, cs0)
    | none =>
      let pricesParams : PricesParams :=
        { srcToken := tokenFrom, destToken := tokenTo, amount := body.amountWei,
          side := "SELL", network := env.chainId, userAddress := wallet,
          excludeDEXS := excludeParam body.excludeDexs,
          slippage := slippagePct body.slippageBps }
      let logs1 := logs0 ++ [.PARASWAP_PRICES pricesParams]
      let cs1 := cs0 ++ [.pricesGet pricesParams]
      match env.quoteResult with
      | .error e => (catchResponse e, logs1, cs1)
      | .ok priceRoute =>
        if jsTruthyO priceRoute.destAmountX = false ∨ jsTruthyO priceRoute.proxyX = false then
          ({ httpStatus := 400, ok := false,
             error := some "ParaSwap não retornou destAmount/tokenTransferProxy. Sem rota/sem liquidez.",
             raw := some (.quote priceRoute), logs := some logs1 }, logs1, cs1)
        else
          let dv := priceRoute.destAmountX.getD .vnull
          let pv := priceRoute.proxyX.getD .vnull
          let logs2 := logs1 ++ [.PRICE_OK dv.jsString pv]
          if body.unsignedOnly then
            buildStage env body wallet tokenFrom tokenTo priceRoute dv logs2 cs1
          else
            let ea := ensureAllowance env tokenFrom wallet pv.jsString body.amountWei logs2 cs1
            match ea.1 with
            | .error e => (catchResponse e, ea.2.1, ea.2.2)
            | .ok _ => buildStage env body wallet tokenFrom tokenTo priceRoute dv ea.2.1 ea.2.2

/-- The POST /swap handler of server.js lines 159-333 as a pure
function: the response sent, the full log-bag contents, and the
ordered external calls performed.  Address validation failures throw
badRequest errors that the catch handler answers. -/
def swapHandler (env : Env) (body : SwapBody) :
    SwapResponse × List LogEntry × List ExtCall :=
  match env.getAddress body.wallet with
  | none => (catchResponse (.badRequest ("Endereço inválido em wallet: " ++ body.wallet)), [], [])
  | some wallet =>
    match env.getAddress body.tokenFrom with
    | none => (catchResponse (.badRequest ("Endereço inválido em tokenFrom: " ++ body.tokenFrom)), [], [])
    | some tokenFrom =>
      match env.getAddress body.tokenTo with
      | none => (catchResponse (.badRequest ("Endereço inválido em tokenTo: " ++ body.tokenTo)), [], [])
      | some tokenTo => swapMain env body wallet tokenFrom tokenTo

/-- Inversion of the slippage rejection test: it passes exactly for a
numeric value between 1 and 2000. -/
theorem slippageInvalid_eq_false_iff (s : Option ℚ) :
    slippageInvalid s = false ↔ ∃ q, s = some q ∧ 1 ≤ q ∧ q ≤ 2000 := by
  cases s with
  | none => simp [slippageInvalid]
  | some q =>
    simp only [slippageInvalid, Bool.or_eq_false_iff, decide_eq_false_iff_not, not_lt,
      beq_eq_false_iff_ne, ne_eq, Option.some.injEq]
    constructor
    · rintro ⟨⟨hq0, h1⟩, h2⟩
      exact ⟨q, rfl, h1, h2⟩
    · rintro ⟨q2, rfl, h1, h2⟩
      refine ⟨⟨fun h0 => by simp [h0] at h1; linarith, h1⟩, h2⟩

/-- The comma-join is empty exactly for the empty list and for the
singleton list holding the empty string. -/
theorem joinCSV_eq_empty_iff (xs : List String) :
    joinCSV xs = "" ↔ xs = [] ∨ xs = [""] := by
  match xs with
  | [] => simp [joinCSV]
  | [x] => simp [joinCSV]
  | x :: y :: r =>
    simp only [joinCSV]
    constructor
    · intro h
      have hl := congrArg String.length h
      rw [String.length_append, String.length_append] at hl
      have h1 : (",").length = 1 := rfl
      have h0 : ("").length = 0 := rfl
      rw [h1, h0] at hl
      omega
    · rintro (h | h) <;> simp at h

/-- The eager signer check records at most the signer address read. -/
theorem signerCheckCalls_sub (env : Env) (u : Bool) :
    ∀ c ∈ signerCheckCalls env u, c = ExtCall.signerGetAddress := by
  unfold signerCheckCalls
  split
  · simp
  · split <;> simp

/-- ensureAllowance introduces no transaction-build call. -/
theorem ensureAllowance_buildPost_mem (env : Env) (t o s n : String)
    (lg : List LogEntry) (cs : List ExtCall) (b : TxBody)
    (h : ExtCall.buildPost b ∈ (ensureAllowance env t o s n lg cs).2.2) :
    ExtCall.buildPost b ∈ cs := by
  unfold ensureAllowance at h
  repeat' first
  | split at h
  | simp only [] at h
  all_goals simp_all [List.mem_append]

/-- ensureAllowance introduces no pricing call. -/
theorem ensureAllowance_pricesGet_mem (env : Env) (t o s n : String)
    (lg : List LogEntry) (cs : List ExtCall) (p : PricesParams)
    (h : ExtCall.pricesGet p ∈ (ensureAllowance env t o s n lg cs).2.2) :
    ExtCall.pricesGet p ∈ cs := by
  unfold ensureAllowance at h
  repeat' first
  | split at h
  | simp only [] at h
  all_goals simp_all [List.mem_append]

/-- The broadcast stage introduces no transaction-build call. -/
theorem sendStage_buildPost_mem (env : Env) (dv : JSVal) (t : TxData)
    (lg : List LogEntry) (cs : List ExtCall) (b : TxBody)
    (h : ExtCall.buildPost b ∈ (sendStage env dv t lg cs).2.2) :
    ExtCall.buildPost b ∈ cs := by
  unfold sendStage at h
  repeat' first
  | split at h
  | simp only [] at h
  all_goals simp_all [List.mem_append]

/-- The broadcast stage introduces no pricing call. -/
theorem sendStage_pricesGet_mem (env : Env) (dv : JSVal) (t : TxData)
    (lg : List LogEntry) (cs : List ExtCall) (p : PricesParams)
    (h : ExtCall.pricesGet p ∈ (sendStage env dv t lg cs).2.2) :
    ExtCall.pricesGet p ∈ cs := by
  unfold sendStage at h
  repeat' first
  | split at h
  | simp only [] at h
  all_goals simp_all [List.mem_append]

/-- Any transaction-build call recorded by the build stage either was
already recorded or carries exactly the body the stage constructs:
the forwarded route, the request tokens and amount, the slippage
percentage, no destAmount, the configured partner. -/
theorem buildStage_buildPost_mem (env : Env) (body : SwapBody)
    (w tf tt : String) (q : QuoteResp) (dv : JSVal)
    (lg : List LogEntry) (cs : List ExtCall) (b : TxBody)
    (h : ExtCall.buildPost b ∈ (buildStage env body w tf tt q dv lg cs).2.2) :
    ExtCall.buildPost b ∈ cs ∨
      b = { priceRoute := q.forward, srcToken := tf, destToken := tt,
            srcAmount := body.amountWei, userAddress := w,
            slippage := slippagePct body.slippageBps, destAmount := none,
            partner := env.partner } := by
  unfold buildStage at h
  repeat' first
  | split at h
  | simp only [] at h
  all_goals try (replace h := sendStage_buildPost_mem _ _ _ _ _ _ h)
  all_goals simp_all [List.mem_append]

/-- The build stage introduces no pricing call. -/
theorem buildStage_pricesGet_mem (env : Env) (body : SwapBody)
    (w tf tt : String) (q : QuoteResp) (dv : JSVal)
    (lg : List LogEntry) (cs : List ExtCall) (p : PricesParams)
    (h : ExtCall.pricesGet p ∈ (buildStage env body w tf tt q dv lg cs).2.2) :
    ExtCall.pricesGet p ∈ cs := by
  unfold buildStage at h
  repeat' first
  | split at h
  | simp only [] at h
  all_goals try (replace h := sendStage_pricesGet_mem _ _ _ _ _ _ h)
  all_goals simp_all [List.mem_append]

theorem swapMain_buildPost_mem (env : Env) (body : SwapBody)
    (w tf tt : String) (b : TxBody)
    (h : ExtCall.buildPost b ∈ (swapMain env body w tf tt).2.2) :
    ∃ q, env.quoteResult = .ok q ∧ slippageInvalid body.slippageBps = false ∧
      jsTruthyO q.destAmountX = true ∧ jsTruthyO q.proxyX = true ∧
      b = { priceRoute := q.forward, srcToken := tf, destToken := tt,
            srcAmount := body.amountWei, userAddress := w,
            slippage := slippagePct body.slippageBps, destAmount := none,
            partner := env.partner } := by
  unfold swapMain at h
  split at h
  · simp at h
  split at h
  · simp at h
  rename_i ham hsl
  simp only [] at h
  split at h
  · simp only [] at h
    exact absurd (signerCheckCalls_sub env body.unsignedOnly _ h) (by simp)
  split at h
  case _ e heq2 =>
    simp only [] at h
    rcases List.mem_append.mp h with h | h
    · exact absurd (signerCheckCalls_sub env body.unsignedOnly _ h) (by simp)
    · simp at h
  case _ pr heq2 =>
    split at h
    · simp only [] at h
      rcases List.mem_append.mp h with h | h
      · exact absurd (signerCheckCalls_sub env body.unsignedOnly _ h) (by simp)
      · simp at h
    rename_i hcond
    have htr : jsTruthyO pr.destAmountX = true ∧ jsTruthyO pr.proxyX = true := by
      constructor <;> by_contra hx <;> simp at hx <;> exact hcond (by simp [hx])
    have hslf : slippageInvalid body.slippageBps = false := by
      simpa using hsl
    split at h
    · rcases buildStage_buildPost_mem _ _ _ _ _ _ _ _ _ _ h with h | h
      · rcases List.mem_append.mp h with h | h
        · exact absurd (signerCheckCalls_sub env body.unsignedOnly _ h) (by simp)
        · simp at h
      · exact ⟨pr, heq2, hslf, htr.1, htr.2, h⟩
    · split at h
      · simp only [] at h
        have h5 := ensureAllowance_buildPost_mem _ _ _ _ _ _ _ _ h
        rcases List.mem_append.mp h5 with h5 | h5
        · exact absurd (signerCheckCalls_sub env body.unsignedOnly _ h5) (by simp)
        · simp at h5
      · rcases buildStage_buildPost_mem _ _ _ _ _ _ _ _ _ _ h with h | h
        · have h5 := ensureAllowance_buildPost_mem _ _ _ _ _ _ _ _ h
          rcases List.mem_append.mp h5 with h5 | h5
          · exact absurd (signerCheckCalls_sub env body.unsignedOnly _ h5) (by simp)
          · simp at h5
        · exact ⟨pr, heq2, hslf, htr.1, htr.2, h⟩

theorem swapMain_pricesGet_mem (env : Env) (body : SwapBody)
    (w tf tt : String) (p : PricesParams)
    (h : ExtCall.pricesGet p ∈ (swapMain env body w tf tt).2.2) :
    amountWeiOk body.amountWei = true ∧ slippageInvalid body.slippageBps = false ∧
      p = { srcToken := tf, destToken := tt, amount := body.amountWei, side := "SELL",
            network := env.chainId, userAddress := w,
            excludeDEXS := excludeParam body.excludeDexs,
            slippage := slippagePct body.slippageBps } := by
  unfold swapMain at h
  split at h
  · simp at h
  split at h
  · simp at h
  rename_i ham hsl
  have hamt : amountWeiOk body.amountWei = true := by simpa using ham
  have hslf : slippageInvalid body.slippageBps = false := by simpa using hsl
  simp only [] at h
  split at h
  · simp only [] at h
    exact absurd (signerCheckCalls_sub env body.unsignedOnly _ h) (by simp)
  split at h
  case _ e heq2 =>
    simp only [] at h
    rcases List.mem_append.mp h with h | h
    · exact absurd (signerCheckCalls_sub env body.unsignedOnly _ h) (by simp)
    · simp at h
      exact ⟨hamt, hslf, h⟩
  case _ pr heq2 =>
    split at h
    · simp only [] at h
      rcases List.mem_append.mp h with h | h
      · exact absurd (signerCheckCalls_sub env body.unsignedOnly _ h) (by simp)
      · simp at h
        exact ⟨hamt, hslf, h⟩
    rename_i hcond
    split at h
    · replace h := buildStage_pricesGet_mem _ _ _ _ _ _ _ _ _ _ h
      rcases List.mem_append.mp h with h | h
      · exact absurd (signerCheckCalls_sub env body.unsignedOnly _ h) (by simp)
      · simp at h
        exact ⟨hamt, hslf, h⟩
    · split at h
      · simp only [] at h
        replace h := ensureAllowance_pricesGet_mem _ _ _ _ _ _ _ _ h
        rcases List.mem_append.mp h with h | h
        · exact absurd (signerCheckCalls_sub env body.unsignedOnly _ h) (by simp)
        · simp at h
          exact ⟨hamt, hslf, h⟩
      · replace h := buildStage_pricesGet_mem _ _ _ _ _ _ _ _ _ _ h
        replace h := ensureAllowance_pricesGet_mem _ _ _ _ _ _ _ _ h
        rcases List.mem_append.mp h with h | h
        · exact absurd (signerCheckCalls_sub env body.unsignedOnly _ h) (by simp)
        · simp at h
          exact ⟨hamt, hslf, h⟩

theorem swapHandler_buildPost_mem (env : Env) (body : SwapBody) (b : TxBody)
    (h : ExtCall.buildPost b ∈ (swapHandler env body).2.2) :
    ∃ w tf tt q, env.getAddress body.wallet = some w ∧
      env.getAddress body.tokenFrom = some tf ∧
      env.getAddress body.tokenTo = some tt ∧
      env.quoteResult = .ok q ∧ slippageInvalid body.slippageBps = false ∧
      jsTruthyO q.destAmountX = true ∧ jsTruthyO q.proxyX = true ∧
      b = { priceRoute := q.forward, srcToken := tf, destToken := tt,
            srcAmount := body.amountWei, userAddress := w,
            slippage := slippagePct body.slippageBps, destAmount := none,
            partner := env.partner } := by
  unfold swapHandler at h
  split at h
  · simp at h
  case _ w hw =>
    split at h
    · simp at h
    case _ tf htf =>
      split at h
      · simp at h
      case _ tt htt =>
        obtain ⟨q, hq, hsl, h1, h2, hb⟩ := swapMain_buildPost_mem env body w tf tt b h
        exact ⟨w, tf, tt, q, hw, htf, htt, hq, hsl, h1, h2, hb⟩

theorem swapHandler_pricesGet_mem (env : Env) (body : SwapBody) (p : PricesParams)
    (h : ExtCall.pricesGet p ∈ (swapHandler env body).2.2) :
    ∃ w tf tt, env.getAddress body.wallet = some w ∧
      env.getAddress body.tokenFrom = some tf ∧
      env.getAddress body.tokenTo = some tt ∧
      amountWeiOk body.amountWei = true ∧ slippageInvalid body.slippageBps = false ∧
      p = { srcToken := tf, destToken := tt, amount := body.amountWei, side := "SELL",
            network := env.chainId, userAddress := w,
            excludeDEXS := excludeParam body.excludeDexs,
            slippage := slippagePct body.slippageBps } := by
  unfold swapHandler at h
  split at h
  · simp at h
  case _ w hw =>
    split at h
    · simp at h
    case _ tf htf =>
      split at h
      · simp at h
      case _ tt htt =>
        obtain ⟨ham, hsl, hp⟩ := swapMain_pricesGet_mem env body w tf tt p h
        exact ⟨w, tf, tt, hw, htf, htt, ham, hsl, hp⟩

theorem signerCheckResp_logs (env : Env) (w : String) (u : Bool)
    (lg : List LogEntry) (r : SwapResponse)
    (h : signerCheckResp env w u lg = some r) :
    r.logs = some lg ∧ r.ok = false ∧ r.httpStatus = 400 := by
  unfold signerCheckResp at h
  split at h
  · simp at h
  · split at h
    · simp at h
      subst h
      exact ⟨rfl, rfl, rfl⟩
    · split at h
      · simp at h
        subst h
        exact ⟨rfl, rfl, rfl⟩
      · simp at h

theorem sendStage_trace (env : Env) (dv : JSVal) (t : TxData)
    (lg : List LogEntry) (cs : List ExtCall) :
    (sendStage env dv t lg cs).1.logs = some (sendStage env dv t lg cs).2.1 ∨
      ∃ e, (sendStage env dv t lg cs).1 = catchResponse e := by
  unfold sendStage
  repeat' first
  | split
  | simp only []
  all_goals first
  | exact Or.inl rfl
  | exact Or.inl trivial
  | exact Or.inr ⟨_, rfl⟩

theorem buildStage_trace (env : Env) (body : SwapBody)
    (w tf tt : String) (q : QuoteResp) (dv : JSVal)
    (lg : List LogEntry) (cs : List ExtCall) :
    (buildStage env body w tf tt q dv lg cs).1.logs =
        some (buildStage env body w tf tt q dv lg cs).2.1 ∨
      ∃ e, (buildStage env body w tf tt q dv lg cs).1 = catchResponse e := by
  unfold buildStage
  repeat' first
  | split
  | simp only []
  all_goals first
  | exact Or.inl rfl
  | exact Or.inl trivial
  | exact Or.inr ⟨_, rfl⟩
  | exact sendStage_trace _ _ _ _ _

theorem swapMain_trace (env : Env) (body : SwapBody) (w tf tt : String) :
    (swapMain env body w tf tt).1.logs = some (swapMain env body w tf tt).2.1 ∨
      ∃ e, (swapMain env body w tf tt).1 = catchResponse e := by
  unfold swapMain
  repeat' first
  | split
  | simp only []
  all_goals first
  | exact Or.inl rfl
  | exact Or.inl trivial
  | exact Or.inr ⟨_, rfl⟩
  | exact buildStage_trace _ _ _ _ _ _ _ _ _
  | (rename_i r heq; exact Or.inl (signerCheckResp_logs _ _ _ _ _ heq).1)

theorem swapHandler_trace (env : Env) (body : SwapBody) :
    (swapHandler env body).1.logs = some (swapHandler env body).2.1 ∨
      ∃ e, (swapHandler env body).1 = catchResponse e := by
  unfold swapHandler
  repeat' split
  all_goals first
  | exact Or.inr ⟨_, rfl⟩
  | exact swapMain_trace _ _ _ _ _

/-- The eager check passes (no early response) in unsigned mode, and
in signed mode when the configured signer matches the wallet
case-insensitively. -/
theorem signerCheckResp_none (env : Env) (w : String) (u : Bool) (lg : List LogEntry)
    (h : u = true ∨ ∃ sa, env.signerAddress = some sa ∧ lowerAscii sa = lowerAscii w) :
    signerCheckResp env w u lg = none := by
  unfold signerCheckResp
  rcases h with h | ⟨sa, hsa, he⟩
  · simp [h]
  · by_cases hu : u
    · simp [hu]
    · simp [hu, hsa, he]

/-- A pricing answer carrying both required fields in the wrapper. -/
def wQuote : QuoteResp :=
  { wrapper := some { destAmount := some (.vstr "42"), tokenTransferProxy := some (.vstr "0xP") },
    top := { destAmount := none, tokenTransferProxy := none } }

/-- A complete built transaction. -/
def wTx : TxData :=
  { toF := some (.vstr "0xC"), dataF := some (.vstr "0xdd"), value := some (.vstr "0"),
    gasPrice := none, gas := some (.vstr "500000") }

/-- An environment where every external call succeeds. -/
def wEnv : Env :=
  { chainId := 42161, partner := none, getAddress := fun s => some s,
    signerAddress := some "0xAb", quoteResult := .ok wQuote, allowanceAmount := 0,
    approveResult := .ok "0xah", approveWaitResult := .ok 10,
    buildResult := .ok wTx, sendResult := .ok "0xsh", waitResult := .ok ⟨11, 1⟩ }

/-- A valid unsigned-mode request body. -/
def wBody : SwapBody :=
  { wallet := "0xAb", tokenFrom := "0xF1", tokenTo := "0xT2", amountWei := "18703660",
    slippageBps := some 120, excludeDexs := [], unsignedOnly := true }

/-- C2: with a sufficient on-chain allowance, ensureAllowance
performs no chain write and reports approved false; with an
insufficient one it submits exactly one approval requesting
MaxUint256 and reports approved true only when the confirmation wait
succeeded. -/
theorem ensureAllowance_escalation_c2 (env : Env)
    (token owner spender neededWei : String)
    (logs : List LogEntry) (cs : List ExtCall) (n : ℤ)
    (hn : decStrToBigInt neededWei = some n) :
    (n ≤ (env.allowanceAmount : ℤ) →
      (ensureAllowance env token owner spender neededWei logs cs).1 = .ok ⟨false⟩ ∧
      ((ensureAllowance env token owner spender neededWei logs cs).2.2.filter isChainWrite
        = cs.filter isChainWrite)) ∧
    ((env.allowanceAmount : ℤ) < n →
      ((ensureAllowance env token owner spender neededWei logs cs).2.2.filter isChainWrite
        = cs.filter isChainWrite ++ [ExtCall.approveSend token spender MaxUint256]) ∧
      ∀ r, (ensureAllowance env token owner spender neededWei logs cs).1 = .ok r →
        r.approved = true ∧ ∃ b, env.approveWaitResult = .ok b) := by
  unfold ensureAllowance
  rw [hn]
  simp only []
  constructor
  · intro hle
    rw [if_pos hle]
    simp [List.filter_append, isChainWrite]
  · intro hlt
    rw [if_neg (not_le.mpr hlt)]
    cases har : env.approveResult with
    | error e => simp [List.filter_append, isChainWrite]
    | ok h2 =>
      cases hwr : env.approveWaitResult with
      | error e => simp [List.filter_append, isChainWrite]
      | ok b =>
        refine ⟨by simp [List.filter_append, isChainWrite], ?_⟩
        intro r hr
        simp only [Except.ok.injEq] at hr
        subst hr
        exact ⟨rfl, b, rfl⟩

theorem ensureAllowance_escalation_c2_witness :
    (ensureAllowance { wEnv with allowanceAmount := 100 } "0xF1" "0xAb" "0xP" "40" [] []).1
        = .ok ⟨false⟩ ∧
    ((ensureAllowance { wEnv with allowanceAmount := 100 } "0xF1" "0xAb" "0xP" "40" [] []).2.2.filter
        isChainWrite = []) :=
  (ensureAllowance_escalation_c2 { wEnv with allowanceAmount := 100 }
    "0xF1" "0xAb" "0xP" "40" [] [] 40 (by decide)).1 (by decide)

/-- C4: in signed mode with a configured signer whose address
differs case-insensitively from the validated wallet, the handler
answers the mismatch 400 and the only external call performed is the
signer address read: no quote, allowance or build call is issued. -/
theorem signer_mismatch_eager_c4 (env : Env) (body : SwapBody) (w sa : String)
    (hw : env.getAddress body.wallet = some w)
    (htf : (env.getAddress body.tokenFrom).isSome = true)
    (htt : (env.getAddress body.tokenTo).isSome = true)
    (ham : amountWeiOk body.amountWei = true)
    (hsl : slippageInvalid body.slippageBps = false)
    (hu : body.unsignedOnly = false)
    (hsa : env.signerAddress = some sa)
    (hne : lowerAscii sa ≠ lowerAscii w) :
    (swapHandler env body).1 =
      { httpStatus := 400, ok := false,
        error := some ("wallet (" ++ w ++ ") não bate com o signer do servidor (" ++ sa ++ ")."),
        logs := some (swapHandler env body).2.1 } ∧
    (swapHandler env body).2.2 = [ExtCall.signerGetAddress] := by
  obtain ⟨tf, htf2⟩ := Option.isSome_iff_exists.mp htf
  obtain ⟨tt, htt2⟩ := Option.isSome_iff_exists.mp htt
  simp only [swapHandler, hw, htf2, htt2, swapMain, ham, hsl, signerCheckResp,
    signerCheckCalls, hu, hsa, Bool.false_eq_true, if_false, if_neg, hne, ite_true,
    ite_false, ne_eq, not_false_iff]
  simp [hne]

theorem signer_mismatch_eager_c4_witness :
    (swapHandler { wEnv with signerAddress := some "0xCd" }
        { wBody with unsignedOnly := false }).1 =
      { httpStatus := 400, ok := false,
        error := some ("wallet (" ++ "0xAb" ++ ") não bate com o signer do servidor (" ++ "0xCd" ++ ")."),
        logs := some (swapHandler { wEnv with signerAddress := some "0xCd" }
            { wBody with unsignedOnly := false }).2.1 } ∧
    (swapHandler { wEnv with signerAddress := some "0xCd" }
        { wBody with unsignedOnly := false }).2.2 = [ExtCall.signerGetAddress] :=
  signer_mismatch_eager_c4 _ _ "0xAb" "0xCd" rfl rfl rfl (by decide) (by decide) rfl rfl
    (by decide)

/-- C3: when the quote call succeeds but the answer lacks a truthy
destination amount or transfer proxy, the handler answers the
no-route 400 carrying the raw payload and the accumulated trace, and
no allowance or build call is ever issued. -/
theorem noRoute_no_allowance_or_build_c3 (env : Env) (body : SwapBody)
    (w tf tt : String) (q : QuoteResp)
    (hw : env.getAddress body.wallet = some w)
    (htf : env.getAddress body.tokenFrom = some tf)
    (htt : env.getAddress body.tokenTo = some tt)
    (ham : amountWeiOk body.amountWei = true)
    (hsl : slippageInvalid body.slippageBps = false)
    (hsig : body.unsignedOnly = true ∨
      ∃ sa, env.signerAddress = some sa ∧ lowerAscii sa = lowerAscii w)
    (hq : env.quoteResult = .ok q)
    (hmiss : jsTruthyO q.destAmountX = false ∨ jsTruthyO q.proxyX = false) :
    (swapHandler env body).1.httpStatus = 400 ∧
    (swapHandler env body).1.ok = false ∧
    (swapHandler env body).1.error =
      some "ParaSwap não retornou destAmount/tokenTransferProxy. Sem rota/sem liquidez." ∧
    (swapHandler env body).1.raw = some (.quote q) ∧
    (swapHandler env body).1.logs = some (swapHandler env body).2.1 ∧
    ∀ c ∈ (swapHandler env body).2.2, touchesAllowanceOrBuild c = false := by
  have hsg := signerCheckResp_none env w body.unsignedOnly
    [LogEntry.WALLET w tf tt body.amountWei body.slippageBps body.excludeDexs body.unsignedOnly]
    hsig
  simp only [swapHandler, hw, htf, htt, swapMain, ham, hsl, hsg, hq]
  simp only [Bool.true_eq_false, Bool.false_eq_true, if_false, ite_false, ite_true, if_true]
  rw [if_pos hmiss]
  refine ⟨rfl, rfl, rfl, rfl, rfl, ?_⟩
  intro c hc
  rcases List.mem_append.mp hc with hc | hc
  · rw [signerCheckCalls_sub env body.unsignedOnly c hc]
    rfl
  · simp at hc
    subst hc
    rfl

/-- ensureAllowance with a covering allowance: the exact no-op
result. -/
theorem ensureAllowance_noop (env : Env) (token owner spender neededWei : String)
    (logs : List LogEntry) (cs : List ExtCall) (n : ℤ)
    (hn : decStrToBigInt neededWei = some n)
    (hle : n ≤ (env.allowanceAmount : ℤ)) :
    ensureAllowance env token owner spender neededWei logs cs =
      (.ok ⟨false⟩, logs ++ [.ALLOWANCE spender env.allowanceAmount neededWei],
        cs ++ [.allowanceRead token owner spender]) := by
  unfold ensureAllowance
  rw [hn]
  simp only []
  rw [if_pos hle]

/-- The broadcast stage only appends to the call list. -/
theorem sendStage_calls_mono (env : Env) (dv : JSVal) (t : TxData)
    (lg : List LogEntry) (cs : List ExtCall) (c : ExtCall) (h : c ∈ cs) :
    c ∈ (sendStage env dv t lg cs).2.2 := by
  unfold sendStage
  repeat' first
  | split
  | simp only []
  all_goals simp [List.mem_append, h]

/-- The build stage only appends to the call list. -/
theorem buildStage_calls_mono (env : Env) (body : SwapBody)
    (w tf tt : String) (q : QuoteResp) (dv : JSVal)
    (lg : List LogEntry) (cs : List ExtCall) (c : ExtCall) (h : c ∈ cs) :
    c ∈ (buildStage env body w tf tt q dv lg cs).2.2 := by
  unfold buildStage
  repeat' first
  | split
  | simp only []
  all_goals first
  | exact sendStage_calls_mono _ _ _ _ _ _ (by simp [List.mem_append, h])
  | simp [List.mem_append, h]

/-- ensureAllowance only appends to the call list. -/
theorem ensureAllowance_calls_mono (env : Env) (t o s n : String)
    (lg : List LogEntry) (cs : List ExtCall) (c : ExtCall) (h : c ∈ cs) :
    c ∈ (ensureAllowance env t o s n lg cs).2.2 := by
  unfold ensureAllowance
  repeat' first
  | split
  | simp only []
  all_goals simp [List.mem_append, h]

/-- A pricing answer with no destination amount anywhere. -/
def noRouteQuote : QuoteResp :=
  { wrapper := none, top := { destAmount := none, tokenTransferProxy := some (.vstr "0xP") } }

/-- wEnv with the pricing service answering noRouteQuote. -/
def envC3 : Env := { wEnv with quoteResult := .ok noRouteQuote }

theorem noRoute_no_allowance_or_build_c3_witness :
    (swapHandler envC3 wBody).1.httpStatus = 400 ∧
    (swapHandler envC3 wBody).1.ok = false ∧
    (swapHandler envC3 wBody).1.error =
      some "ParaSwap não retornou destAmount/tokenTransferProxy. Sem rota/sem liquidez." ∧
    (swapHandler envC3 wBody).1.raw = some (.quote noRouteQuote) ∧
    (swapHandler envC3 wBody).1.logs = some (swapHandler envC3 wBody).2.1 ∧
    ∀ c ∈ (swapHandler envC3 wBody).2.2, touchesAllowanceOrBuild c = false :=
  noRoute_no_allowance_or_build_c3 envC3 wBody "0xAb" "0xF1" "0xT2" noRouteQuote rfl rfl rfl
    (by decide) (by decide) (Or.inl rfl) rfl (Or.inl rfl)

/-- C5: every transaction-build request the handler issues carries a
slippage value — the request basis points over 100, fixed to four
decimals — and no destination-amount target, so the two are never
supplied together. -/
theorem txBody_slippage_not_destAmount_c5 (env : Env) (body : SwapBody) (b : TxBody)
    (h : ExtCall.buildPost b ∈ (swapHandler env body).2.2) :
    b.destAmount = none ∧
    ∃ q, body.slippageBps = some q ∧ 1 ≤ q ∧ q ≤ 2000 ∧
      b.slippage = toFixed4 (q / 100) := by
  obtain ⟨w, tf, tt, qr, hw, htf, htt, hq, hsl, h1, h2, hb⟩ :=
    swapHandler_buildPost_mem env body b h
  obtain ⟨q, hqs, hq1, hq2⟩ := (slippageInvalid_eq_false_iff body.slippageBps).mp hsl
  subst hb
  refine ⟨rfl, q, hqs, hq1, hq2, ?_⟩
  simp [slippagePct, hqs]

/-- The transaction-build body wEnv and wBody give rise to. -/
def wBuildBody : TxBody :=
  { priceRoute := wQuote.forward, srcToken := "0xF1", destToken := "0xT2",
    srcAmount := "18703660", userAddress := "0xAb",
    slippage := slippagePct wBody.slippageBps, destAmount := none, partner := none }

theorem txBody_slippage_not_destAmount_c5_witness :
    wBuildBody.destAmount = none ∧
    ∃ q, wBody.slippageBps = some q ∧ 1 ≤ q ∧ q ≤ 2000 ∧
      wBuildBody.slippage = toFixed4 (q / 100) :=
  txBody_slippage_not_destAmount_c5 wEnv wBody wBuildBody (by decide)

/-- C9 amended: the nested field wins exactly when it is truthy; a
present but falsy nested value falls back to the top level; and the
payload forwarded to the build call is the wrapper object whenever
the priceRoute field is present, else the whole answer. -/
theorem route_precedence_c9 (q : QuoteResp) (pf : PriceFields)
    (env : Env) (body : SwapBody) (b : TxBody) :
    (q.wrapper = some pf → jsTruthyO pf.destAmount = true →
      q.destAmountX = pf.destAmount) ∧
    (q.wrapper = some pf → jsTruthyO pf.destAmount = false →
      q.destAmountX = q.top.destAmount) ∧
    (q.wrapper = none → q.destAmountX = q.top.destAmount) ∧
    (q.wrapper = some pf → jsTruthyO pf.tokenTransferProxy = true →
      q.proxyX = pf.tokenTransferProxy) ∧
    (q.wrapper = some pf → jsTruthyO pf.tokenTransferProxy = false →
      q.proxyX = q.top.tokenTransferProxy) ∧
    (q.wrapper = none → q.proxyX = q.top.tokenTransferProxy) ∧
    (q.wrapper = some pf → q.forward = .wrapped pf) ∧
    (q.wrapper = none → q.forward = .whole q) ∧
    (ExtCall.buildPost b ∈ (swapHandler env body).2.2 →
      ∃ q2, env.quoteResult = .ok q2 ∧ b.priceRoute = q2.forward) := by
  refine ⟨?_, ?_, ?_, ?_, ?_, ?_, ?_, ?_, ?_⟩
  · intro hw ht
    simp [QuoteResp.destAmountX, jsOrV, hw, ht]
  · intro hw ht
    simp [QuoteResp.destAmountX, jsOrV, hw, ht]
  · intro hw
    simp [QuoteResp.destAmountX, jsOrV, hw, jsTruthyO]
  · intro hw ht
    simp [QuoteResp.proxyX, jsOrV, hw, ht]
  · intro hw ht
    simp [QuoteResp.proxyX, jsOrV, hw, ht]
  · intro hw
    simp [QuoteResp.proxyX, jsOrV, hw, jsTruthyO]
  · intro hw
    simp [QuoteResp.forward, hw]
  · intro hw
    simp [QuoteResp.forward, hw]
  · intro h
    obtain ⟨w, tf, tt, q2, hw2, htf, htt, hq, hsl, h1, h2, hb⟩ :=
      swapHandler_buildPost_mem env body b h
    exact ⟨q2, hq, by rw [hb]⟩

/-- A pricing answer whose wrapper carries a present but falsy
destination amount (the number 0) next to a truthy top-level one. -/
def q9 : QuoteResp :=
  { wrapper := some { destAmount := some (.vnum 0), tokenTransferProxy := some (.vstr "0xP") },
    top := { destAmount := some (.vstr "100"), tokenTransferProxy := none } }

/-- The build body the q9 run produces: the wrapper is forwarded. -/
def b9 : TxBody :=
  { priceRoute := .wrapped { destAmount := some (.vnum 0), tokenTransferProxy := some (.vstr "0xP") },
    srcToken := "0xF1", destToken := "0xT2", srcAmount := "18703660",
    userAddress := "0xAb", slippage := slippagePct wBody.slippageBps,
    destAmount := none, partner := none }

/-- C9 counterexample: with a present but falsy nested destination
amount (the number 0) next to a truthy top-level one, extraction uses
the top-level value while the wrapper is still the forwarded payload:
the nested value does not take precedence and the two precedences
disagree. -/
theorem falsy_nested_field_cex_c9 :
    q9.wrapper = some { destAmount := some (.vnum 0), tokenTransferProxy := some (.vstr "0xP") } ∧
    q9.destAmountX = some (JSVal.vstr "100") ∧
    (swapHandler { wEnv with quoteResult := .ok q9 } wBody).1.destAmount = some "100" ∧
    ExtCall.buildPost b9 ∈ (swapHandler { wEnv with quoteResult := .ok q9 } wBody).2.2 := by
  refine ⟨rfl, rfl, by decide, by decide⟩

theorem route_precedence_c9_witness :
    wQuote.destAmountX =
      some (JSVal.vstr "42") ∧ wQuote.forward = .wrapped
        { destAmount := some (.vstr "42"), tokenTransferProxy := some (.vstr "0xP") } := by
  have h := route_precedence_c9 wQuote
    { destAmount := some (.vstr "42"), tokenTransferProxy := some (.vstr "0xP") } wEnv wBody b9
  exact ⟨h.1 rfl (by decide), h.2.2.2.2.2.2.1 rfl⟩

/-- C10: in signed mode, once the confirmation wait returns a
receipt, the handler answers HTTP 200 with ok true, echoes the
receipt status verbatim and reports the quoted destination amount —
whatever the receipt status value, including 0. -/
theorem confirmed_ok_ignores_receipt_status_c10 (env : Env) (body : SwapBody)
    (w tf tt sa : String) (q : QuoteResp) (t : TxData) (n v : ℤ)
    (g : Option ℤ) (hsh : String) (rc : Receipt)
    (hw : env.getAddress body.wallet = some w)
    (htf : env.getAddress body.tokenFrom = some tf)
    (htt : env.getAddress body.tokenTo = some tt)
    (ham : amountWeiOk body.amountWei = true)
    (hsl : slippageInvalid body.slippageBps = false)
    (hu : body.unsignedOnly = false)
    (hsa : env.signerAddress = some sa)
    (hmatch : lowerAscii sa = lowerAscii w)
    (hq : env.quoteResult = .ok q)
    (hd : jsTruthyO q.destAmountX = true)
    (hp : jsTruthyO q.proxyX = true)
    (hn : decStrToBigInt body.amountWei = some n)
    (hal : n ≤ (env.allowanceAmount : ℤ))
    (hb : env.buildResult = .ok t)
    (hto : jsTruthyO t.toF = true)
    (hdata : jsTruthyO t.dataF = true)
    (hv : txValueWei t = some v)
    (hg : txGasLimit t = some g)
    (hs : env.sendResult = .ok hsh)
    (hwait : env.waitResult = .ok rc) :
    (swapHandler env body).1.httpStatus = 200 ∧
    (swapHandler env body).1.ok = true ∧
    (swapHandler env body).1.txStatus = some rc.status ∧
    (swapHandler env body).1.hash = some hsh ∧
    (swapHandler env body).1.destAmount = some (q.destAmountX.getD JSVal.vnull).jsString := by
  have hsg : ∀ lg, signerCheckResp env w false lg = none :=
    fun lg => signerCheckResp_none env w false lg (Or.inr ⟨sa, hsa, hmatch⟩)
  have hea : ∀ sp lg cs, ensureAllowance env tf w sp body.amountWei lg cs =
      (.ok ⟨false⟩, lg ++ [.ALLOWANCE sp env.allowanceAmount body.amountWei],
        cs ++ [.allowanceRead tf w sp]) :=
    fun sp lg cs => ensureAllowance_noop env tf w sp body.amountWei lg cs n hn hal
  simp only [swapHandler, hw, htf, htt, swapMain, ham, hsl, hsg, hq, hu, hd, hp,
    Bool.true_eq_false, Bool.false_eq_true, or_self, if_false, ite_false, ite_true,
    hea, buildStage, hb, hto, hdata, sendStage, hv, hg, hs, hwait]
  exact ⟨trivial, trivial, trivial, trivial, trivial⟩

/-- wEnv in signed mode: allowance already covers the amount and the
swap receipt reports on-chain status 0 (reverted). -/
def envC10 : Env := { wEnv with allowanceAmount := 10 ^ 18, waitResult := .ok ⟨11, 0⟩ }

theorem confirmed_ok_ignores_receipt_status_c10_witness :
    (swapHandler envC10 { wBody with unsignedOnly := false }).1.httpStatus = 200 ∧
    (swapHandler envC10 { wBody with unsignedOnly := false }).1.ok = true ∧
    (swapHandler envC10 { wBody with unsignedOnly := false }).1.txStatus = some 0 ∧
    (swapHandler envC10 { wBody with unsignedOnly := false }).1.hash = some "0xsh" ∧
    (swapHandler envC10 { wBody with unsignedOnly := false }).1.destAmount = some "42" :=
  confirmed_ok_ignores_receipt_status_c10 envC10 { wBody with unsignedOnly := false }
    "0xAb" "0xF1" "0xT2" "0xAb" wQuote wTx 18703660 0 (some 500000) "0xsh" ⟨11, 0⟩
    rfl rfl rfl (by decide) (by decide) rfl rfl rfl rfl (by decide) (by decide)
    (by decide) (by decide) rfl (by decide) (by decide) (by decide) (by decide) rfl rfl

/-- C6 amended: a non-2xx upstream answer from the pricing or build
service is answered with the upstream status code itself reused as
the HTTP status (400-class only when the upstream one was), ok false,
and the upstream body preserved in details; no trace is attached. -/
theorem upstream_error_passthrough_c6 (env : Env) (body : SwapBody)
    (w tf tt msg : String) (st : ℕ) (dataB : Option UpstreamBody)
    (hw : env.getAddress body.wallet = some w)
    (htf : env.getAddress body.tokenFrom = some tf)
    (htt : env.getAddress body.tokenTo = some tt)
    (ham : amountWeiOk body.amountWei = true)
    (hsl : slippageInvalid body.slippageBps = false)
    (hsig : body.unsignedOnly = true ∨
      ∃ sa, env.signerAddress = some sa ∧ lowerAscii sa = lowerAscii w)
    (hst : st ≠ 0) :
    (env.quoteResult = .error (.axios msg st dataB) →
      (swapHandler env body).1.httpStatus = st ∧
      (swapHandler env body).1.ok = false ∧
      (swapHandler env body).1.details = dataB ∧
      (swapHandler env body).1.logs = none) ∧
    (∀ q, env.quoteResult = .ok q → jsTruthyO q.destAmountX = true →
      jsTruthyO q.proxyX = true → body.unsignedOnly = true →
      env.buildResult = .error (.axios msg st dataB) →
      (swapHandler env body).1.httpStatus = st ∧
      (swapHandler env body).1.ok = false ∧
      (swapHandler env body).1.details = dataB ∧
      (swapHandler env body).1.logs = none) := by
  constructor
  · intro hqe
    have hsg : ∀ lg, signerCheckResp env w body.unsignedOnly lg = none :=
      fun lg => signerCheckResp_none env w body.unsignedOnly lg hsig
    simp only [swapHandler, hw, htf, htt, swapMain, ham, hsl, hsg, hqe,
      Bool.true_eq_false, Bool.false_eq_true, if_false, ite_false, ite_true]
    refine ⟨?_, rfl, rfl, rfl⟩
    simp [catchResponse, jsErrStatus, hst]
  · intro q hq hd hp hu2 hbe
    have hsg : ∀ lg, signerCheckResp env w true lg = none :=
      fun lg => signerCheckResp_none env w true lg (Or.inl rfl)
    simp only [swapHandler, hw, htf, htt, swapMain, ham, hsl, hu2, hsg, hq, hd, hp,
      Bool.true_eq_false, Bool.false_eq_true, or_self, if_false, ite_false, ite_true,
      buildStage, hbe]
    refine ⟨?_, rfl, rfl, rfl⟩
    simp [catchResponse, jsErrStatus, hst]

/-- An upstream 503 with a plain body. -/
def err503 : JsErr :=
  .axios "Request failed with status code 503" 503
    (some { errorField := none, rest := "Service Unavailable" })

/-- C6 counterexample: an upstream 503 from the pricing service is
answered with HTTP 503 — a 500-class status, not a 400-class one —
though status and body are preserved. -/
theorem upstream_503_passthrough_cex_c6 :
    (swapHandler { wEnv with quoteResult := .error err503 } wBody).1.httpStatus = 503 ∧
    ¬ (swapHandler { wEnv with quoteResult := .error err503 } wBody).1.httpStatus < 500 ∧
    (swapHandler { wEnv with quoteResult := .error err503 } wBody).1.details =
      some { errorField := none, rest := "Service Unavailable" } :=
  ⟨by decide, by decide, by decide⟩

/-- wEnv with the pricing service rejecting with a 502. -/
def envC6 : Env :=
  { wEnv with quoteResult := .error (.axios "failed" 502
      (some { errorField := some "bad gateway", rest := "" })) }

theorem upstream_error_passthrough_c6_witness :
    (swapHandler envC6 wBody).1.httpStatus = 502 ∧
    (swapHandler envC6 wBody).1.ok = false ∧
    (swapHandler envC6 wBody).1.details =
      some { errorField := some "bad gateway", rest := "" } ∧
    (swapHandler envC6 wBody).1.logs = none :=
  (upstream_error_passthrough_c6 envC6 wBody "0xAb" "0xF1" "0xT2" "failed" 502
    (some { errorField := some "bad gateway", rest := "" }) rfl rfl rfl (by decide)
    (by decide) (Or.inl rfl) (by decide)).1 rfl

/-- Past validation and the signer gate, the pricing call is always
issued, whatever the quote outcome. -/
theorem swapMain_pricesGet_present (env : Env) (body : SwapBody) (w tf tt : String)
    (ham : amountWeiOk body.amountWei = true)
    (hsl : slippageInvalid body.slippageBps = false)
    (hsg : ∀ lg, signerCheckResp env w body.unsignedOnly lg = none) :
    ∃ p, ExtCall.pricesGet p ∈ (swapMain env body w tf tt).2.2 := by
  refine ⟨{ srcToken := tf, destToken := tt, amount := body.amountWei, side := "SELL",
            network := env.chainId, userAddress := w,
            excludeDEXS := excludeParam body.excludeDexs,
            slippage := slippagePct body.slippageBps }, ?_⟩
  simp only [swapMain, ham, hsl, hsg, Bool.true_eq_false, Bool.false_eq_true,
    if_false, ite_false, ite_true]
  cases hqr : env.quoteResult with
  | error e =>
    simp [hqr, List.mem_append]
  | ok pr =>
    simp only [hqr]
    by_cases hmiss : (jsTruthyO pr.destAmountX = false ∨ jsTruthyO pr.proxyX = false)
    · rw [if_pos hmiss]
      simp [List.mem_append]
    · rw [if_neg hmiss]
      by_cases hu : body.unsignedOnly = true
      · simp only [hu, ite_true, if_true]
        apply buildStage_calls_mono
        simp [List.mem_append]
      · simp only [hu, ite_false, if_false, Bool.false_eq_true]
        split
        · apply ensureAllowance_calls_mono
          simp [List.mem_append]
        · apply buildStage_calls_mono
          apply ensureAllowance_calls_mono
          simp [List.mem_append]

/-- C7 amended: validation rejects with the invalid-slippage 400
exactly when the coerced slippage value is NaN (modelled as none) or
a number outside [1, 2000] — integrality is never checked; inside the
range, boundaries included, the request proceeds to the pricing
call. -/
theorem slippage_range_check_c7 (env : Env) (body : SwapBody)
    (w tf tt : String)
    (hw : env.getAddress body.wallet = some w)
    (htf : env.getAddress body.tokenFrom = some tf)
    (htt : env.getAddress body.tokenTo = some tt)
    (ham : amountWeiOk body.amountWei = true)
    (hsig : body.unsignedOnly = true ∨
      ∃ sa, env.signerAddress = some sa ∧ lowerAscii sa = lowerAscii w) :
    (∀ qv, body.slippageBps = some qv → (qv < 1 ∨ 2000 < qv) →
      (swapHandler env body).1.httpStatus = 400 ∧
      (swapHandler env body).1.error = some "slippageBps inválido (1..2000)." ∧
      (swapHandler env body).1.logs = some (swapHandler env body).2.1 ∧
      (swapHandler env body).2.2 = []) ∧
    (body.slippageBps = none →
      (swapHandler env body).1.httpStatus = 400 ∧
      (swapHandler env body).1.error = some "slippageBps inválido (1..2000)." ∧
      (swapHandler env body).1.logs = some (swapHandler env body).2.1 ∧
      (swapHandler env body).2.2 = []) ∧
    (∀ qv, body.slippageBps = some qv → 1 ≤ qv → qv ≤ 2000 →
      ∃ p, ExtCall.pricesGet p ∈ (swapHandler env body).2.2) := by
  have hrej : slippageInvalid body.slippageBps = true →
      (swapHandler env body).1.httpStatus = 400 ∧
      (swapHandler env body).1.error = some "slippageBps inválido (1..2000)." ∧
      (swapHandler env body).1.logs = some (swapHandler env body).2.1 ∧
      (swapHandler env body).2.2 = [] := by
    intro hinv
    simp only [swapHandler, hw, htf, htt, swapMain, ham, hinv,
      Bool.true_eq_false, if_false, ite_false, ite_true]
    exact ⟨trivial, trivial, trivial, trivial⟩
  refine ⟨?_, ?_, ?_⟩
  · intro qv hq hout
    refine hrej ?_
    rw [hq]
    rcases hout with h | h <;>
      simp [slippageInvalid, h]
  · intro hq
    refine hrej ?_
    rw [hq]
    rfl
  · intro qv hq h1 h2
    have hval : slippageInvalid body.slippageBps = false :=
      (slippageInvalid_eq_false_iff body.slippageBps).mpr ⟨qv, hq, h1, h2⟩
    have hsg : ∀ lg, signerCheckResp env w body.unsignedOnly lg = none :=
      fun lg => signerCheckResp_none env w body.unsignedOnly lg hsig
    simp only [swapHandler, hw, htf, htt]
    exact swapMain_pricesGet_present env body w tf tt ham hval hsg

/-- wEnv with the pricing call failing at transport level. -/
def envC1 : Env := { wEnv with quoteResult := .error (.netfail "network down") }

/-- C7 counterexample: slippage 1.5 basis points is not an integer
yet passes validation — the request proceeds to the pricing call and
the final answer is the catch response for the quote failure, not the
invalid-slippage 400. -/
theorem noninteger_slippage_accepted_cex_c7 :
    slippageInvalid (some (3 / 2)) = false ∧
    (¬ ∃ z : ℤ, ((3 : ℚ) / 2) = (z : ℚ)) ∧
    (swapHandler envC1 { wBody with slippageBps := some (3 / 2) }).1 =
      catchResponse (.netfail "network down") := by
  refine ⟨by decide, ?_, by decide⟩
  rintro ⟨z, hz⟩
  have hd := congrArg Rat.den hz
  rw [Rat.den_intCast] at hd
  exact absurd hd (by decide)

theorem slippage_range_check_c7_witness :
    (∃ p, ExtCall.pricesGet p ∈
      (swapHandler wEnv { wBody with slippageBps := some 1 }).2.2) ∧
    (∃ p, ExtCall.pricesGet p ∈
      (swapHandler wEnv { wBody with slippageBps := some 2000 }).2.2) ∧
    (swapHandler wEnv { wBody with slippageBps := some 2001 }).1.httpStatus = 400 ∧
    (swapHandler wEnv { wBody with slippageBps := none }).1.httpStatus = 400 :=
  ⟨(slippage_range_check_c7 wEnv { wBody with slippageBps := some 1 }
      "0xAb" "0xF1" "0xT2" rfl rfl rfl (by decide) (Or.inl rfl)).2.2 1 rfl
      (by norm_num) (by norm_num),
   (slippage_range_check_c7 wEnv { wBody with slippageBps := some 2000 }
      "0xAb" "0xF1" "0xT2" rfl rfl rfl (by decide) (Or.inl rfl)).2.2 2000 rfl
      (by norm_num) (by norm_num),
   ((slippage_range_check_c7 wEnv { wBody with slippageBps := some 2001 }
      "0xAb" "0xF1" "0xT2" rfl rfl rfl (by decide) (Or.inl rfl)).1 2001 rfl
      (Or.inr (by norm_num))).1,
   ((slippage_range_check_c7 wEnv { wBody with slippageBps := none }
      "0xAb" "0xF1" "0xT2" rfl rfl rfl (by decide) (Or.inl rfl)).2.1 rfl).1⟩

/-- C8 amended: every pricing request omits the exclusion parameter
exactly when the comma-join of the exclusion list is empty — for the
empty list and for the singleton holding the empty string — and
otherwise sends the nonempty comma-join. -/
theorem excludeDEXS_serialization_c8 (env : Env) (body : SwapBody) (p : PricesParams)
    (h : ExtCall.pricesGet p ∈ (swapHandler env body).2.2) :
    (p.excludeDEXS = none ↔ body.excludeDexs = [] ∨ body.excludeDexs = [""]) ∧
    ∀ s, p.excludeDEXS = some s → s = joinCSV body.excludeDexs ∧ s ≠ "" := by
  obtain ⟨w, tf, tt, hw, htf, htt, ham, hsl, hp⟩ := swapHandler_pricesGet_mem env body p h
  subst hp
  constructor
  · show excludeParam body.excludeDexs = none ↔ _
    rw [← joinCSV_eq_empty_iff]
    unfold excludeParam
    split
    · rename_i hj
      simp [hj]
    · rename_i hj
      simp [hj]
  · intro s hs
    change excludeParam body.excludeDexs = some s at hs
    unfold excludeParam at hs
    split at hs
    · exact absurd hs (by simp)
    · rename_i hj
      injection hs with hs2
      subst hs2
      exact ⟨rfl, hj⟩

/-- The pricing parameters sent for the singleton empty-string
exclusion list: the parameter is omitted. -/
def pCex8 : PricesParams :=
  { srcToken := "0xF1", destToken := "0xT2", amount := "18703660", side := "SELL",
    network := 42161, userAddress := "0xAb", excludeDEXS := none,
    slippage := slippagePct wBody.slippageBps }

/-- C8 counterexample: the singleton exclusion list holding the empty
string is non-empty, yet the parameter is omitted rather than sent as
its (empty) comma-join. -/
theorem exclude_singleton_empty_cex_c8 :
    (([""] : List String) ≠ []) ∧ excludeParam [""] = none ∧
    ExtCall.pricesGet pCex8 ∈ (swapHandler wEnv { wBody with excludeDexs := [""] }).2.2 :=
  ⟨by decide, by decide, by decide⟩

/-- The pricing parameters the C8 witness run produces. -/
def pC8 : PricesParams :=
  { srcToken := "0xF1", destToken := "0xT2", amount := "18703660", side := "SELL",
    network := 42161, userAddress := "0xAb", excludeDEXS := some "Dexalot,Uni",
    slippage := slippagePct wBody.slippageBps }

theorem excludeDEXS_serialization_c8_witness :
    (pC8.excludeDEXS = none ↔
      ({ wBody with excludeDexs := ["Dexalot", "Uni"] } : SwapBody).excludeDexs = [] ∨
      ({ wBody with excludeDexs := ["Dexalot", "Uni"] } : SwapBody).excludeDexs = [""]) ∧
    ∀ s, pC8.excludeDEXS = some s →
      s = joinCSV ({ wBody with excludeDexs := ["Dexalot", "Uni"] } : SwapBody).excludeDexs ∧
      s ≠ "" :=
  excludeDEXS_serialization_c8 wEnv { wBody with excludeDexs := ["Dexalot", "Uni"] } pC8
    (by decide)

/-- C1 counterexample: a quote transport failure is answered by the
catch handler with no logs member even though the trace already holds
entries. -/
theorem quote_transport_failure_drops_trace_cex_c1 :
    (swapHandler envC1 wBody).1.ok = false ∧
    (swapHandler envC1 wBody).1.logs = none ∧
    (swapHandler envC1 wBody).2.1 ≠ [] :=
  ⟨by decide, by decide, by decide⟩

/-- C1 amended: every failure response either carries exactly the
trace accumulated so far (every explicit-check failure does) or is
built by the catch handler, which reports message and upstream
details but never attaches the trace. -/
theorem failure_trace_policy_c1 (env : Env) (body : SwapBody)
    (h : (swapHandler env body).1.ok = false) :
    (swapHandler env body).1.logs = some (swapHandler env body).2.1 ∨
      ∃ e, (swapHandler env body).1 = catchResponse e ∧
        (swapHandler env body).1.logs = none := by
  rcases swapHandler_trace env body with h2 | ⟨e, h2⟩
  · exact Or.inl h2
  · refine Or.inr ⟨e, h2, ?_⟩
    rw [h2]
    rfl

theorem failure_trace_policy_c1_witness :
    (swapHandler wEnv { wBody with slippageBps := some 3000 }).1.ok = false ∧
    ((swapHandler wEnv { wBody with slippageBps := some 3000 }).1.logs =
        some (swapHandler wEnv { wBody with slippageBps := some 3000 }).2.1 ∨
      ∃ e, (swapHandler wEnv { wBody with slippageBps := some 3000 }).1 = catchResponse e ∧
        (swapHandler wEnv { wBody with slippageBps := some 3000 }).1.logs = none) :=
  ⟨by decide, failure_trace_policy_c1 wEnv { wBody with slippageBps := some 3000 } (by decide)⟩
